import Mathlib

/-!
Shallow embedding of `src/main.go` (a minimal OpenTelemetry-instrumented
dice-rolling HTTP service) and proofs about its request handlers and its
startup/shutdown lifecycle.

The Go side effects (span operations, log records, counter increments,
response writes) are modelled as an explicit event trace; `math/rand`'s
`rand.Intn` is modelled as a function of an abstract random seed.
-/

namespace DiceApp

/-- Model of `rand.Intn n`: some value in `[0, n)`, derived from an abstract
random seed.  The only property the code relies on is the range. -/
def randIntn (n seed : Nat) : Nat := seed % n

/-- Observable side effects of a request handler execution, in program order:
span start/end (`tracer.Start` / deferred `span.End`), span attributes
(`span.SetAttributes`), OTel log records (`logger.InfoContext`), counter
increments (`rollCnt.Add`), local process logs (`log.Println`/`log.Printf`),
and the response-body write (`io.WriteString`, with `err = none` on success). -/
inductive Event where
  | spanStart (name : String)
  | spanEnd (name : String)
  | setAttr (key : String) (value : Nat)
  | logInfo (msg : String) (field : String) (value : Nat)
  | counterAdd (counter : String) (amount : Nat) (dimKey : String) (dimVal : Nat)
  | logLocal (msg : String)
  | write (body : String) (err : Option String)
deriving DecidableEq

/-- Result of one handler execution: its event trace and the string it wrote
as the response body (implicit HTTP 200 in all cases). -/
structure HandlerResult where
  events : List Event
  body : String
deriving DecidableEq

/-- `roll := 1 + rand.Intn(6)` in `dice` (main.go line 124). -/
def rollOf (seed : Nat) : Nat := 1 + randIntn 6 seed

/-- The log message computed by `dice` (main.go lines 126-131) from
`player := r.PathValue("player")`. -/
def diceMsg (player : String) : String :=
  if player ≠ "" then player ++ " is rolling the dice"
  else "Anonymous player is rolling the dice"

/-- `resp := strconv.Itoa(roll) + "\n"` (main.go line 138). -/
def diceResp (seed : Nat) : String := Nat.repr (rollOf seed) ++ "\n"

/-- The `dice` handler (main.go lines 120-142).  `player` is the value of
`r.PathValue("player")` for the incoming request, `seed` feeds the
pseudo-random roll, `writeErr` is the outcome of `io.WriteString`
(`none` = success).  The deferred `span.End` fires on every exit path;
a failed write is logged locally via `log.Printf` and swallowed. -/
def dice (player : String) (seed : Nat) (writeErr : Option String) : HandlerResult :=
  let roll := rollOf seed
  let resp := diceResp seed
  { events :=
      [Event.spanStart "roll",
       Event.logInfo (diceMsg player) "result" roll,
       Event.setAttr "roll.value" roll,
       Event.counterAdd "dice.rolls" 1 "roll.value" roll,
       Event.write resp writeErr]
      ++ (match writeErr with
          | some e => [Event.logLocal ("Escritura fallida: " ++ e)]
          | none => [])
      ++ [Event.spanEnd "roll"],
    body := resp }

/-- The `hello` handler (main.go lines 116-118): it logs "Hola, Mundo!" via
`log.Println` and writes nothing to the response body. -/
def hello : HandlerResult :=
  { events := [Event.logLocal "Hola, Mundo!"], body := "" }

/-- The anonymous handler registered on `http.DefaultServeMux` by
`http.HandleFunc("/", ...)` inside `run` (main.go lines 46-48): it writes
"Hola, Mundo!" as the body.  The server's `Handler` field is set to
`newHTTPHandler()`, so this default-mux registration is never consulted. -/
def defaultMuxRoot : HandlerResult :=
  { events := [], body := "Hola, Mundo!" }

/-- `r.PathValue("player")` under the routes registered by `newHTTPHandler`
(main.go lines 88-89): the patterns "/" and "/dice" declare no wildcards,
so every path value is the empty string. -/
def pathValuePlayer (_path : String) : String := ""

/-- Dispatch of the server's handler `newHTTPHandler()` (main.go lines
77-94): the mux sends path "/dice" to `dice` and everything else to `hello`
(pattern "/" matches all otherwise-unmatched paths). -/
def serverHandle (path : String) (seed : Nat) (writeErr : Option String) : HandlerResult :=
  if path = "/dice" then dice (pathValuePlayer path) seed writeErr else hello

/-- A Go `error` value, modelled as the list of messages of the primitive
errors it aggregates; `[]` models a `nil` error. -/
abbrev GoError := List String

/-- `errors.Join(a, b)`: aggregates the two errors, `nil` iff both are. -/
def errorsJoin (a b : GoError) : GoError := a ++ b

/-- Steps of `run` observable at the lifecycle level (main.go lines 30-75). -/
inductive LifeEvent where
  | setupOTel
  | registerDefaultMux
  | createServer
  | listenAndServe
  | srvShutdown
  | otelShutdown
deriving DecidableEq

/-- Which arm of the `select` in `run` (main.go lines 64-71) fires first:
either `srv.ListenAndServe()` delivers an error on `srvErr`, or the
interrupt-signal context is done. -/
inductive ServeOutcome where
  | serverError (e : String)
  | interrupt
deriving DecidableEq

/-- Environment resolving the external nondeterminism of one `run`
execution: whether `setupOTelSDK` fails, which `select` arm wins, and the
errors returned by `srv.Shutdown` and by the OTel shutdown function. -/
structure RunEnv where
  setupErr : Option String
  outcome : ServeOutcome
  srvShutdownErr : GoError
  otelShutdownErr : GoError
deriving DecidableEq

/-- How `run` terminates: `fatalExit` models the `log.Fatalf` call inside
`run` (which logs the message and exits the process with status 1);
`returned` models a normal return with the given error value. -/
inductive RunExit where
  | fatalExit (msg : String)
  | returned (err : GoError)
deriving DecidableEq

/-- Outcome of one `run` execution: how it ended plus the ordered trace of
lifecycle steps it performed. -/
structure RunResult where
  exit : RunExit
  trace : List LifeEvent
deriving DecidableEq

/-- The `run` function (main.go lines 30-75).  On `setupOTelSDK` failure it
calls `log.Fatalf` at once.  Otherwise it registers the default-mux root
handler, creates the server, starts `ListenAndServe` and blocks in the
`select`: if the server errors first, `run` returns immediately (no
`srv.Shutdown`); on interrupt it calls `srv.Shutdown`.  In both return
paths the deferred function joins the OTel shutdown error onto the result,
so the OTel shutdown always runs last. -/
def run (env : RunEnv) : RunResult :=
  match env.setupErr with
  | some e =>
      { exit := RunExit.fatalExit ("Fallo al configurar OpenTelemetry SDK: " ++ e),
        trace := [LifeEvent.setupOTel] }
  | none =>
      match env.outcome with
      | ServeOutcome.serverError e =>
          { exit := RunExit.returned (errorsJoin [e] env.otelShutdownErr),
            trace := [LifeEvent.setupOTel, LifeEvent.registerDefaultMux,
                      LifeEvent.createServer, LifeEvent.listenAndServe,
                      LifeEvent.otelShutdown] }
      | ServeOutcome.interrupt =>
          { exit := RunExit.returned (errorsJoin env.srvShutdownErr env.otelShutdownErr),
            trace := [LifeEvent.setupOTel, LifeEvent.registerDefaultMux,
                      LifeEvent.createServer, LifeEvent.listenAndServe,
                      LifeEvent.srvShutdown, LifeEvent.otelShutdown] }

/-- The serving/shutdown error `run` holds in `err` just before the deferred
join runs: the `ListenAndServe` error if the server errored first, else the
`srv.Shutdown` error. -/
def servingErr (env : RunEnv) : GoError :=
  match env.outcome with
  | ServeOutcome.serverError e => [e]
  | ServeOutcome.interrupt => env.srvShutdownErr

/-- `main` (main.go lines 24-28): exit status 0 iff `run` returned `nil`;
`log.Fatalf` (in `main` or inside `run`) exits with status 1. -/
def mainExitCode (env : RunEnv) : Nat :=
  match (run env).exit with
  | RunExit.fatalExit _ => 1
  | RunExit.returned [] => 0
  | RunExit.returned (_ :: _) => 1

/-! ### Trace-observation helpers -/

/-- The amount an event contributes to the `dice.rolls` counter. -/
def addAmount (e : Event) : Nat :=
  match e with
  | Event.counterAdd c amt _ _ => if c = "dice.rolls" then amt else 0
  | _ => 0

/-- All `dice.rolls` counter increments in a trace, as
(amount, dimension key, dimension value) triples. -/
def counterIncrements (evs : List Event) : List (Nat × String × Nat) :=
  evs.filterMap fun e =>
    match e with
    | Event.counterAdd c amt k v => if c = "dice.rolls" then some (amt, k, v) else none
    | _ => none

/-- Total amount added to the `dice.rolls` counter over a trace. -/
def incrementSum (evs : List Event) : Nat := (evs.map addAmount).sum

/-- Number of `spanEnd` events with the given span name in a trace. -/
def spanEnds (n : String) (evs : List Event) : Nat :=
  (evs.filter fun e =>
    match e with
    | Event.spanEnd m => m = n
    | _ => false).length

/-- Number of `spanStart` events with the given span name in a trace. -/
def spanStarts (n : String) (evs : List Event) : Nat :=
  (evs.filter fun e =>
    match e with
    | Event.spanStart m => m = n
    | _ => false).length

/-- Whether an event is one of the three request-scoped telemetry signals:
an OTel log record, a span attribute, or a counter increment. -/
def isTelemetry (e : Event) : Bool :=
  match e with
  | Event.logInfo _ _ _ => true
  | Event.setAttr _ _ => true
  | Event.counterAdd _ _ _ _ => true
  | _ => false

/-- Values of the `result` field of OTel log records in a trace. -/
def logResultValues (evs : List Event) : List Nat :=
  evs.filterMap fun e =>
    match e with
    | Event.logInfo _ f v => if f = "result" then some v else none
    | _ => none

/-- Values of span attributes with the given key in a trace. -/
def attrValues (key : String) (evs : List Event) : List Nat :=
  evs.filterMap fun e =>
    match e with
    | Event.setAttr k v => if k = key then some v else none
    | _ => none

/-- Values of the `roll.value` dimension on counter increments in a trace. -/
def counterDimValues (evs : List Event) : List Nat :=
  evs.filterMap fun e =>
    match e with
    | Event.counterAdd _ _ k v => if k = "roll.value" then some v else none
    | _ => none

/-! ### Interleaving of concurrent request traces -/

/-- `Interleave xs ys zs`: `zs` is an order-preserving merge of `xs` and
`ys`, as produced by two concurrent requests emitting their events. -/
inductive Interleave : List Event → List Event → List Event → Prop where
  | nil : Interleave [] [] []
  | left {x : Event} {xs ys zs : List Event} :
      Interleave xs ys zs → Interleave (x :: xs) ys (x :: zs)
  | right {y : Event} {xs ys zs : List Event} :
      Interleave xs ys zs → Interleave xs (y :: ys) (y :: zs)

/-- `InterleaveMany ls zs`: `zs` is an order-preserving merge of all the
traces in `ls`, one per concurrent request. -/
inductive InterleaveMany : List (List Event) → List Event → Prop where
  | nil : InterleaveMany [] []
  | cons {l : List Event} {ls : List (List Event)} {rest all : List Event} :
      Interleave l rest all → InterleaveMany ls rest → InterleaveMany (l :: ls) all

theorem interleave_nil_left (ys : List Event) : Interleave [] ys ys := by
  induction ys with
  | nil => exact Interleave.nil
  | cons y ys ih => exact Interleave.right ih

theorem interleave_nil_right (xs : List Event) : Interleave xs [] xs := by
  induction xs with
  | nil => exact Interleave.nil
  | cons x xs ih => exact Interleave.left ih

theorem interleave_append (xs ys : List Event) : Interleave xs ys (xs ++ ys) := by
  induction xs with
  | nil => simpa using interleave_nil_left ys
  | cons x xs ih => exact Interleave.left ih

theorem interleave_incrementSum {xs ys zs : List Event}
    (h : Interleave xs ys zs) : incrementSum zs = incrementSum xs + incrementSum ys := by
  induction h with
  | nil => rfl
  | left _ ih => simp [incrementSum, List.map_cons, List.sum_cons] at ih ⊢; omega
  | right _ ih => simp [incrementSum, List.map_cons, List.sum_cons] at ih ⊢; omega

theorem interleaveMany_incrementSum {ls : List (List Event)} {zs : List Event}
    (h : InterleaveMany ls zs) : incrementSum zs = (ls.map incrementSum).sum := by
  induction h with
  | nil => rfl
  | cons hi _ ih =>
      rw [interleave_incrementSum hi, ih]
      simp [List.map_cons, List.sum_cons]

/-! ### Per-request counter lemmas -/

theorem counterIncrements_dice (player : String) (seed : Nat) (werr : Option String) :
    counterIncrements (dice player seed werr).events = [(1, "roll.value", rollOf seed)] := by
  cases werr <;> simp [dice, counterIncrements]

theorem incrementSum_dice (player : String) (seed : Nat) (werr : Option String) :
    incrementSum (dice player seed werr).events = 1 := by
  cases werr <;> simp [dice, incrementSum, addAmount]

theorem sum_incrementSum_dice (reqs : List (String × Nat × Option String)) :
    ((reqs.map fun r => (dice r.1 r.2.1 r.2.2).events).map incrementSum).sum
      = reqs.length := by
  induction reqs with
  | nil => rfl
  | cons r rs ih =>
      simp only [List.map_cons, List.sum_cons, List.length_cons, incrementSum_dice, ih]
      omega

theorem diceResp_format_aux (k : Nat) (hk : k < 6) :
    ∃ r : Nat, 1 ≤ r ∧ r ≤ 6 ∧
      Nat.repr (1 + k) ++ "\n" = Nat.repr r ++ "\n" ∧
      ((Nat.repr (1 + k) ++ "\n").toList.count '\n' = 1) ∧
      (Nat.repr (1 + k) ++ "\n").toList.head? ≠ some '0' := by
  interval_cases k <;> refine ⟨_, ?_, ?_, rfl, ?_, ?_⟩ <;> decide

/-! ### Claim theorems -/

/-- C1: for every execution of the `dice` handler, the response body it
writes is the decimal representation of an integer in [1,6] followed by
exactly one newline character, with no leading zero. -/
theorem dice_response_body_format (player : String) (seed : Nat) (werr : Option String) :
    ∃ r : Nat, 1 ≤ r ∧ r ≤ 6 ∧
      (dice player seed werr).body = Nat.repr r ++ "\n" ∧
      ((dice player seed werr).body.toList.count '\n' = 1) ∧
      (dice player seed werr).body.toList.head? ≠ some '0' := by
  have hb : (dice player seed werr).body = Nat.repr (1 + seed % 6) ++ "\n" := rfl
  rw [hb]
  exact diceResp_format_aux (seed % 6) (Nat.mod_lt seed (by decide))

/-- C2: a `dice` execution whose request carries player value "Alice" emits
the OTel log record with message "Alice is rolling the dice"; one whose
player value is absent/empty emits "Anonymous player is rolling the dice". -/
theorem dice_log_message (seed : Nat) (werr : Option String) :
    Event.logInfo "Alice is rolling the dice" "result" (rollOf seed)
        ∈ (dice "Alice" seed werr).events
    ∧ Event.logInfo "Anonymous player is rolling the dice" "result" (rollOf seed)
        ∈ (dice "" seed werr).events := by
  have h1 : diceMsg "Alice" = "Alice is rolling the dice" := by decide
  have h2 : diceMsg "" = "Anonymous player is rolling the dice" := by decide
  cases werr <;> simp [dice, h1, h2]

/-- C3 (counterexample): the route "/" is served by `hello` through the
server's handler `newHTTPHandler()`, and the response body is empty, not
"Hola, Mundo!"; the claim fails at the concrete request path "/". -/
theorem hello_route_body_counterexample :
    ¬ ((serverHandle "/" 0 none).body = "Hola, Mundo!"
        ∧ Event.logLocal "Hola, Mundo!" ∈ (serverHandle "/" 0 none).events) := by
  decide

/-- C3 (amended): for every request to the route "/" served by the server's
handler, the response body is empty (implicit 200) and the request is
logged server-side as "Hola, Mundo!"; the handler writing body
"Hola, Mundo!" is registered only on the unused default mux. -/
theorem hello_route_behavior (seed : Nat) (werr : Option String) :
    (serverHandle "/" seed werr).body = ""
    ∧ Event.logLocal "Hola, Mundo!" ∈ (serverHandle "/" seed werr).events
    ∧ defaultMuxRoot.body = "Hola, Mundo!" := by
  refine ⟨rfl, ?_, rfl⟩
  simp [serverHandle, hello]

/-- C4: every `dice` execution adds exactly one increment of 1 to the
`dice.rolls` counter, carrying a `roll.value` dimension equal to the value
rolled for that request; and for any interleaving of the traces of N
concurrent requests, the total amount added to the counter is N. -/
theorem dice_counter_per_request (reqs : List (String × Nat × Option String))
    (trace : List Event)
    (h : InterleaveMany (reqs.map fun r => (dice r.1 r.2.1 r.2.2).events) trace) :
    (∀ r ∈ reqs,
        counterIncrements (dice r.1 r.2.1 r.2.2).events
          = [(1, "roll.value", rollOf r.2.1)])
    ∧ incrementSum trace = reqs.length := by
  refine ⟨fun r _ => counterIncrements_dice r.1 r.2.1 r.2.2, ?_⟩
  rw [interleaveMany_incrementSum h]
  exact sum_incrementSum_dice reqs

/-- Two concrete requests and the sequential interleaving of their traces,
used to witness the counter-sum theorem. -/
def c4reqs : List (String × Nat × Option String) :=
  [("Alice", 0, none), ("", 7, some "client disconnected")]

def c4trace : List Event :=
  (dice "Alice" 0 none).events ++ (dice "" 7 (some "client disconnected")).events

theorem dice_counter_per_request_witness :
    (∀ r ∈ c4reqs,
        counterIncrements (dice r.1 r.2.1 r.2.2).events
          = [(1, "roll.value", rollOf r.2.1)])
    ∧ incrementSum c4trace = c4reqs.length :=
  dice_counter_per_request c4reqs c4trace
    (InterleaveMany.cons
      (interleave_append (dice "Alice" 0 none).events
        (dice "" 7 (some "client disconnected")).events)
      (InterleaveMany.cons
        (interleave_nil_right (dice "" 7 (some "client disconnected")).events)
        InterleaveMany.nil))

/-- C5: every `dice` execution starts exactly one span named "roll" and
ends it exactly once, the end being the final action on every exit path,
including the path where the response-body write fails. -/
theorem dice_span_closed_once (player : String) (seed : Nat) (werr : Option String) :
    spanStarts "roll" (dice player seed werr).events = 1
    ∧ spanEnds "roll" (dice player seed werr).events = 1
    ∧ (dice player seed werr).events.getLast? = some (Event.spanEnd "roll") := by
  cases werr <;> simp [dice, spanStarts, spanEnds]

/-- C6: when the response-body write fails, the failure is logged locally
and swallowed (the handler still completes, ending its span); the log
record, span attribute and counter increment are the same as on the
success path, and they were all emitted before the write. -/
theorem dice_write_failure_swallowed (player : String) (seed : Nat) (e : String) :
    (dice player seed (some e)).events.filter isTelemetry
        = (dice player seed none).events.filter isTelemetry
    ∧ Event.logLocal ("Escritura fallida: " ++ e) ∈ (dice player seed (some e)).events
    ∧ (dice player seed (some e)).body = diceResp seed
    ∧ (dice player seed (some e)).events.getLast? = some (Event.spanEnd "roll")
    ∧ (∃ pre post,
        (dice player seed (some e)).events
            = pre ++ Event.write (diceResp seed) (some e) :: post
        ∧ pre.filter isTelemetry
            = (dice player seed (some e)).events.filter isTelemetry) := by
  refine ⟨?_, ?_, rfl, ?_, ?_⟩
  · simp [dice, isTelemetry]
  · simp [dice]
  · simp [dice]
  · refine ⟨[Event.spanStart "roll",
        Event.logInfo (diceMsg player) "result" (rollOf seed),
        Event.setAttr "roll.value" (rollOf seed),
        Event.counterAdd "dice.rolls" 1 "roll.value" (rollOf seed)],
      [Event.logLocal ("Escritura fallida: " ++ e), Event.spanEnd "roll"], rfl, ?_⟩
    simp [dice, isTelemetry]

/-- Environment whose `select` is won by a `ListenAndServe` error:
on this path `run` returns without calling `srv.Shutdown`. -/
def c7env : RunEnv :=
  { setupErr := none,
    outcome := ServeOutcome.serverError "listen tcp :8080: bind: address already in use",
    srvShutdownErr := [], otelShutdownErr := [] }

/-- C7 (counterexample): on the server-error path, the lifecycle trace never
contains `srv.Shutdown`, yet the OTel shutdown is invoked, so `srv.Shutdown`
does not precede the telemetry shutdown in every shutdown of the process. -/
theorem run_shutdown_order_counterexample :
    ¬ (([LifeEvent.srvShutdown, LifeEvent.otelShutdown]).Sublist (run c7env).trace)
    ∧ LifeEvent.otelShutdown ∈ (run c7env).trace := by
  refine ⟨fun h => absurd (h.subset (List.mem_cons_self _ _)) (by decide), by decide⟩

/-- C7 (amended): in every run that gets past telemetry setup, the OTel
shutdown is the last lifecycle step; on the interrupt path `srv.Shutdown`
is invoked before the OTel shutdown; on the server-error path
`srv.Shutdown` is never invoked. -/
theorem run_shutdown_order (env : RunEnv) (h : env.setupErr = none) :
    (run env).trace.getLast? = some LifeEvent.otelShutdown
    ∧ (env.outcome = ServeOutcome.interrupt →
        ([LifeEvent.srvShutdown, LifeEvent.otelShutdown]).Sublist (run env).trace)
    ∧ (∀ e : String, env.outcome = ServeOutcome.serverError e →
        LifeEvent.srvShutdown ∉ (run env).trace) := by
  obtain ⟨se, oc, a, b⟩ := env
  simp only at h
  subst h
  cases oc with
  | serverError e =>
      refine ⟨by simp [run], ?_, ?_⟩
      · intro hc; cases hc
      · intro e' _ hmem
        simp [run] at hmem
  | interrupt =>
      refine ⟨by simp [run], fun _ => ?_, ?_⟩
      · simp only [run]
        decide
      · intro e' hc _; cases hc

theorem run_shutdown_order_witness :
    (run { setupErr := none, outcome := ServeOutcome.interrupt,
           srvShutdownErr := [], otelShutdownErr := [] }).trace.getLast?
        = some LifeEvent.otelShutdown
    ∧ (ServeOutcome.interrupt = ServeOutcome.interrupt →
        ([LifeEvent.srvShutdown, LifeEvent.otelShutdown]).Sublist
          (run { setupErr := none, outcome := ServeOutcome.interrupt,
                 srvShutdownErr := [], otelShutdownErr := [] }).trace)
    ∧ (∀ e : String, ServeOutcome.interrupt = ServeOutcome.serverError e →
        LifeEvent.srvShutdown ∉
          (run { setupErr := none, outcome := ServeOutcome.interrupt,
                 srvShutdownErr := [], otelShutdownErr := [] }).trace) :=
  run_shutdown_order
    { setupErr := none, outcome := ServeOutcome.interrupt,
      srvShutdownErr := [], otelShutdownErr := [] } rfl

/-- Environment where serving ends with an error and the OTel shutdown also
fails, used to witness the error-join theorem. -/
def c8env : RunEnv :=
  { setupErr := none, outcome := ServeOutcome.serverError "accept failed",
    srvShutdownErr := [], otelShutdownErr := ["flush failed"] }

/-- C8: whenever `run` gets past telemetry setup, the error it returns is
`errors.Join` of the serving/shutdown error and the OTel shutdown error,
and the OTel shutdown is attempted on every such path, regardless of
whether serving ended with an error. -/
theorem run_error_join (env : RunEnv) (h : env.setupErr = none) :
    (run env).exit
        = RunExit.returned (errorsJoin (servingErr env) env.otelShutdownErr)
    ∧ LifeEvent.otelShutdown ∈ (run env).trace := by
  obtain ⟨se, oc, a, b⟩ := env
  simp only at h
  subst h
  cases oc <;> simp [run, servingErr, errorsJoin]

theorem run_error_join_witness :
    (run c8env).exit
        = RunExit.returned (errorsJoin (servingErr c8env) c8env.otelShutdownErr)
    ∧ LifeEvent.otelShutdown ∈ (run c8env).trace :=
  run_error_join c8env rfl

/-- Environment whose telemetry setup fails, used to witness the
startup-abort theorem. -/
def c9env : RunEnv :=
  { setupErr := some "exporter unreachable", outcome := ServeOutcome.interrupt,
    srvShutdownErr := [], otelShutdownErr := [] }

/-- C9: if telemetry setup fails, `run` aborts at once via `log.Fatalf`
with the cause in the logged message, the process exit status is non-zero,
and the HTTP server is never created nor started. -/
theorem run_setup_failure_aborts (env : RunEnv) (e : String)
    (h : env.setupErr = some e) :
    (run env).exit
        = RunExit.fatalExit ("Fallo al configurar OpenTelemetry SDK: " ++ e)
    ∧ mainExitCode env ≠ 0
    ∧ LifeEvent.createServer ∉ (run env).trace
    ∧ LifeEvent.listenAndServe ∉ (run env).trace := by
  obtain ⟨se, oc, a, b⟩ := env
  simp only at h
  subst h
  refine ⟨rfl, by simp [mainExitCode, run], by simp [run], by simp [run]⟩

theorem run_setup_failure_aborts_witness :
    (run c9env).exit
        = RunExit.fatalExit
            ("Fallo al configurar OpenTelemetry SDK: " ++ "exporter unreachable")
    ∧ mainExitCode c9env ≠ 0
    ∧ LifeEvent.createServer ∉ (run c9env).trace
    ∧ LifeEvent.listenAndServe ∉ (run c9env).trace :=
  run_setup_failure_aborts c9env "exporter unreachable" rfl

/-- C10: in every `dice` execution, the rolled value appears once, and with
the same value, in all four places: the log record's `result` field, the
span attribute `roll.value`, the counter dimension `roll.value`, and the
response body. -/
theorem dice_single_roll (player : String) (seed : Nat) (werr : Option String) :
    logResultValues (dice player seed werr).events = [rollOf seed]
    ∧ attrValues "roll.value" (dice player seed werr).events = [rollOf seed]
    ∧ counterDimValues (dice player seed werr).events = [rollOf seed]
    ∧ (dice player seed werr).body = Nat.repr (rollOf seed) ++ "\n" := by
  cases werr <;>
    simp [dice, diceResp, logResultValues, attrValues, counterDimValues]

end DiceApp
